import Mathlib

/-!
Shallow embedding of `src/pyalgotrading/algobulls/api.py` (class `AlgoBullsAPI`).

HTTP transport is modelled by a `Transport` oracle giving the `HttpResponse`
to the n-th request a client issues; the client's mutable attributes
(`__key_backtesting`, `__key_papertrading`, `__key_realtrading`) together with
the trace of issued requests form an explicit `ApiState` threaded through the
operations.  Python exceptions become `Except PyError`.
-/

namespace AlgoBulls

/-- JSON values, as decoded from response bodies (`r.json()`) and as sent in
request bodies (`json_data` dictionaries). -/
inductive JVal where
  | str (s : String)
  | num (n : Int)
  | boolean (b : Bool)
  | null
  | arr (elems : List JVal)
  | obj (fields : List (String × JVal))

/-- Python `None`-vs-value view of a decoded JSON field: JSON `null` decodes to
Python `None`, which is indistinguishable from an absent key under `dict.get`. -/
def pyOpt (v : JVal) : Option JVal :=
  match v with
  | .null => none
  | v => some v

mutual

/-- Serializer mirroring Python `json.dumps` with its default separators. -/
def jdump : JVal → String
  | .str s => "\"" ++ s ++ "\""
  | .num n => toString n
  | .boolean b => if b then "true" else "false"
  | .null => "null"
  | .arr elems => "[" ++ jdumpList elems ++ "]"
  | .obj fields => "\x7b" ++ jdumpFields fields ++ "\x7d"

def jdumpList : List JVal → String
  | [] => ""
  | [v] => jdump v
  | v :: v' :: rest => jdump v ++ ", " ++ jdumpList (v' :: rest)

def jdumpFields : List (String × JVal) → String
  | [] => ""
  | [(k, v)] => "\"" ++ k ++ "\": " ++ jdump v
  | (k, v) :: p :: rest => "\"" ++ k ++ "\": " ++ jdump v ++ ", " ++ jdumpFields (p :: rest)

end

/-- Error kinds of the exception taxonomy in `exceptions.py` (classes
`AlgoBullsAPI*ErrorException`, with `base` standing for
`AlgoBullsAPIBaseException` raised for unknown status codes). -/
inductive ErrorKind where
  | badRequest
  | unauthorized
  | insufficientBalance
  | forbidden
  | resourceNotFound
  | internalServerError
  | gatewayTimeout
  | base
deriving DecidableEq

/-- Payload carried by every `AlgoBullsAPI*Exception`: method, URL, status code
and the raw response body. -/
structure ApiError where
  kind : ErrorKind
  method : String
  url : String
  response : String
  status_code : Nat

/-- Python exceptions that can escape the embedded functions: the classified
API exceptions, `json.JSONDecodeError` from `r.json()`, and `AttributeError`
from calling `.get` on a non-dict decoded body. -/
inductive PyError where
  | api (e : ApiError)
  | jsonDecodeError
  | attributeError

/-- One transport-level HTTP response: its status code, the raw body text as
returned by `get_raw_response` (modelled from the spec: `utils/func.py` is not
under `src/`; the spec says the raw body is captured verbatim), and the result
of `r.json()` (`none` when the body does not JSON-decode). -/
structure HttpResponse where
  status_code : Nat
  raw : String
  json : Option JVal

def SERVER_ENDPOINT : String := "https://api.algobulls.com/"

/-- Response handling of `AlgoBullsAPI._send_request` (api.py lines 73-106):
status 200 returns the decoded body, or a wrapper dict on decode failure;
the seven recognized error codes raise their classified exception carrying
method, url, raw body and status code; any other code raises the base
exception when `raise_exception_unknown_status_code` is set and otherwise
returns `r.json()` (which itself raises on a non-JSON body). -/
def handle_response (method url : String) (raise_exception_unknown_status_code : Bool)
    (r : HttpResponse) : Except PyError JVal :=
  if r.status_code = 200 then
    match r.json with
    | some r_json => .ok r_json
    | none => .ok (.obj [("response", .str r.raw)])
  else if r.status_code = 400 then
    .error (.api ⟨.badRequest, method, url, r.raw, 400⟩)
  else if r.status_code = 401 then
    .error (.api ⟨.unauthorized, method, url, r.raw, 401⟩)
  else if r.status_code = 402 then
    .error (.api ⟨.insufficientBalance, method, url, r.raw, 402⟩)
  else if r.status_code = 403 then
    .error (.api ⟨.forbidden, method, url, r.raw, 403⟩)
  else if r.status_code = 404 then
    .error (.api ⟨.resourceNotFound, method, url, r.raw, 404⟩)
  else if r.status_code = 500 then
    .error (.api ⟨.internalServerError, method, url, r.raw, 500⟩)
  else if r.status_code = 504 then
    .error (.api ⟨.gatewayTimeout, method, url, r.raw, 504⟩)
  else if raise_exception_unknown_status_code then
    .error (.api ⟨.base, method, url, r.raw, r.status_code⟩)
  else
    match r.json with
    | some v => .ok v
    | none => .error .jsonDecodeError

/-- The status-code/error-kind table of the classifier (spec section 7). -/
def errTable : List (Nat × ErrorKind) :=
  [(400, .badRequest), (401, .unauthorized), (402, .insufficientBalance),
   (403, .forbidden), (404, .resourceNotFound), (500, .internalServerError),
   (504, .gatewayTimeout)]

/-- Modelled from the spec: the `TradingType` enum of `..constants` is not
under `src/`; the spec gives only its three member names
(BACKTESTING, PAPERTRADING, REALTRADING). -/
inductive TradingType where
  | BACKTESTING
  | PAPERTRADING
  | REALTRADING
deriving DecidableEq

/-- Modelled from the spec: the wire value (`.value`) of each `TradingType`
member is an opaque platform token, not given in `src/`; three distinct
integers stand in for them. -/
def TradingType.value : TradingType → JVal
  | .BACKTESTING => .num 1
  | .PAPERTRADING => .num 2
  | .REALTRADING => .num 3

/-- Python enum `.name` of a `TradingType` member. -/
def TradingType.name : TradingType → String
  | .BACKTESTING => "BACKTESTING"
  | .PAPERTRADING => "PAPERTRADING"
  | .REALTRADING => "REALTRADING"

/-- Modelled from the spec: the `TradingReportType` enum of `..constants` is
not under `src/`; the spec gives its two member names. -/
inductive TradingReportType where
  | PNL_TABLE
  | ORDER_HISTORY
deriving DecidableEq

/-- One HTTP request as assembled by `_send_request`, recorded so that
theorems can talk about which network calls an operation issued. -/
structure Request where
  method : String
  endpoint : String
  base_url : String
  params : Option (List (String × JVal))
  json_data : Option JVal
  requires_authorization : Bool

/-- The transport oracle: the response the platform gives to the n-th request
issued by the client (counted from 0). -/
def Transport : Type := Nat → HttpResponse

/-- The mutable attributes of one `AlgoBullsAPI` instance relevant to the
claims: the three per-mode strategy-to-key dictionaries initialised empty in
`__init__`, plus the trace of requests issued so far.  The dictionaries map a
strategy code to the stored `response.get('key')`, which can be `None`. -/
structure ApiState where
  reqLog : List Request
  key_backtesting : List (String × Option JVal)
  key_papertrading : List (String × Option JVal)
  key_realtrading : List (String × Option JVal)

def ApiState.init : ApiState := ⟨[], [], [], []⟩

/-- Python `d.get(k)` on a `str -> Optional[str]` dictionary: absent key and
stored `None` are both `None`. -/
def pyGet (d : List (String × Option JVal)) (k : String) : Option JVal :=
  match d.lookup k with
  | some v => v
  | none => none

/-- Python `d[k] = v` on a dictionary: overwrite in place or append. -/
def pySet (d : List (String × Option JVal)) (k : String) (v : Option JVal) :
    List (String × Option JVal) :=
  if (d.lookup k).isSome then
    d.map fun p => if p.1 = k then (k, v) else p
  else
    d ++ [(k, v)]

/-- Python `response.get('key')` where `response` is a decoded JSON body:
raises `AttributeError` unless the body decoded to a dict; a JSON `null`
value decodes to Python `None`. -/
def dict_get (v : JVal) (k : String) : Except PyError (Option JVal) :=
  match v with
  | .obj fields => .ok ((fields.lookup k).bind pyOpt)
  | _ => .error .attributeError

/-- `AlgoBullsAPI._send_request` (api.py lines 52-106): issues one request
through the transport and handles the response; the request is appended to
the trace. -/
def _send_request (tr : Transport) (method endpoint base_url : String)
    (params : Option (List (String × JVal))) (json_data : Option JVal)
    (requires_authorization raise_exception_unknown_status_code : Bool)
    (s : ApiState) : Except PyError JVal × ApiState :=
  let url := base_url ++ endpoint
  let r := tr s.reqLog.length
  let req : Request := ⟨method, endpoint, base_url, params, json_data, requires_authorization⟩
  (handle_response method url raise_exception_unknown_status_code r,
   { s with reqLog := s.reqLog ++ [req] })

/-- The HTTP verb `__fetch_key` uses to register a strategy for a mode
(api.py lines 131-136). -/
def reg_method : TradingType → String
  | .REALTRADING => "post"
  | .PAPERTRADING => "put"
  | .BACKTESTING => "patch"

/-- `AlgoBullsAPI.__fetch_key` (api.py lines 108-142): one registration call
to `v2/portfolio/strategy` with the mode-selected verb, returning
`response.get('key')`. -/
def __fetch_key (tr : Transport) (strategy_code : String) (trading_type : TradingType)
    (s : ApiState) : Except PyError (Option JVal) × ApiState :=
  let endpoint := "v2/portfolio/strategy"
  let json_data : JVal := .obj [("strategyId", .str strategy_code), ("tradingType", trading_type.value)]
  let (response, s1) :=
    _send_request tr (reg_method trading_type) endpoint SERVER_ENDPOINT none (some json_data) true true s
  match response with
  | .ok v => (dict_get v "key", s1)
  | .error e => (.error e, s1)

/-- `AlgoBullsAPI.__get_key` (api.py lines 144-158): per-mode lazy cache in
front of `__fetch_key`; fetches when the stored value is absent or `None`. -/
def __get_key (tr : Transport) (strategy_code : String) (trading_type : TradingType)
    (s : ApiState) : Except PyError (Option JVal) × ApiState :=
  match trading_type with
  | .BACKTESTING =>
    if (pyGet s.key_backtesting strategy_code).isNone then
      match __fetch_key tr strategy_code .BACKTESTING s with
      | (.ok k, s1) =>
        let s2 := { s1 with key_backtesting := pySet s1.key_backtesting strategy_code k }
        (.ok (pyGet s2.key_backtesting strategy_code), s2)
      | (.error e, s1) => (.error e, s1)
    else
      (.ok (pyGet s.key_backtesting strategy_code), s)
  | .PAPERTRADING =>
    if (pyGet s.key_papertrading strategy_code).isNone then
      match __fetch_key tr strategy_code .PAPERTRADING s with
      | (.ok k, s1) =>
        let s2 := { s1 with key_papertrading := pySet s1.key_papertrading strategy_code k }
        (.ok (pyGet s2.key_papertrading strategy_code), s2)
      | (.error e, s1) => (.error e, s1)
    else
      (.ok (pyGet s.key_papertrading strategy_code), s)
  | .REALTRADING =>
    if (pyGet s.key_realtrading strategy_code).isNone then
      match __fetch_key tr strategy_code .REALTRADING s with
      | (.ok k, s1) =>
        let s2 := { s1 with key_realtrading := pySet s1.key_realtrading strategy_code k }
        (.ok (pyGet s2.key_realtrading strategy_code), s2)
      | (.error e, s1) => (.error e, s1)
    else
      (.ok (pyGet s.key_realtrading strategy_code), s)

/-- The cache dictionary `__get_key` consults for a given mode. -/
def cache_of (trading_type : TradingType) (s : ApiState) : List (String × Option JVal) :=
  match trading_type with
  | .BACKTESTING => s.key_backtesting
  | .PAPERTRADING => s.key_papertrading
  | .REALTRADING => s.key_realtrading

/-- The `except (AlgoBullsAPIForbiddenErrorException,
AlgoBullsAPIInsufficientBalanceErrorException)` clause shared by
`create_strategy`, `start_strategy_algotrading` and `stop_strategy_algotrading`:
`none` means the exception was caught (logged and swallowed, the operation
returns `None`); `some e` means `e` is not caught and propagates. -/
def catch_soft : PyError → Option PyError
  | .api a => if a.kind = .forbidden ∨ a.kind = .insufficientBalance then none else some (.api a)
  | e => some e

/-- Result of wrapping an operation body in the soft-failure try/except:
`.ok (some v)` is a normal return, `.ok none` is the silent soft-failure
return (Python returns `None`). -/
def soften (res : Except PyError JVal) : Except PyError (Option JVal) :=
  match res with
  | .ok v => .ok (some v)
  | .error e =>
    match catch_soft e with
    | none => .ok none
    | some e => .error e

/-- `AlgoBullsAPI.create_strategy` (api.py lines 160-188): POST the strategy
payload; Forbidden and InsufficientBalance are caught and swallowed. -/
def create_strategy (tr : Transport) (strategy_name strategy_details abc_version : String)
    (s : ApiState) : Except PyError (Option JVal) × ApiState :=
  let json_data : JVal := .obj [("strategyName", .str strategy_name),
    ("strategyDetails", .str strategy_details), ("abcVersion", .str abc_version)]
  let endpoint := "v3/build/python/user/strategy/code"
  let (response, s1) := _send_request tr "post" endpoint SERVER_ENDPOINT none (some json_data) true true s
  (soften response, s1)

/-- `AlgoBullsAPI.update_strategy` (api.py lines 190-211): PUT the strategy
payload; there is no try/except in this method, so every error propagates. -/
def update_strategy (tr : Transport) (strategy_code strategy_name strategy_details abc_version : String)
    (s : ApiState) : Except PyError JVal × ApiState :=
  let json_data : JVal := .obj [("strategyId", .str strategy_code),
    ("strategyName", .str strategy_name), ("strategyDetails", .str strategy_details),
    ("abcVersion", .str abc_version)]
  let endpoint := "v3/build/python/user/strategy/code"
  _send_request tr "put" endpoint SERVER_ENDPOINT none (some json_data) true true s

/-- Python `datetime` restricted to second precision: `wallSeconds` is the
wall-clock reading as seconds since the epoch, `tzOffsetSeconds` the UTC
offset of the attached timezone (`none` for a naive datetime); the instant
denoted by an aware datetime is `wallSeconds - tzOffsetSeconds`. -/
structure Datetime where
  wallSeconds : Int
  tzOffsetSeconds : Option Int

/-- Civil date from a day number (days since 1970-01-01), the standard
Gregorian conversion. -/
def civilFromDays (z0 : Int) : Int × Int × Int :=
  let z := z0 + 719468
  let era := z.fdiv 146097
  let doe := z - era * 146097
  let yoe := (doe - doe.fdiv 1460 + doe.fdiv 36524 - doe.fdiv 146096).fdiv 365
  let y := yoe + era * 400
  let doy := doe - (365 * yoe + yoe.fdiv 4 - yoe.fdiv 100)
  let mp := (5 * doy + 2).fdiv 153
  let d := doy - (153 * mp + 2).fdiv 5 + 1
  let m := mp + (if mp < 10 then 3 else -9)
  (y + (if m ≤ 2 then 1 else 0), m, d)

def pad2 (n : Int) : String :=
  (if n < 10 then "0" else "") ++ toString n

def pad4 (n : Int) : String :=
  (if n < 10 then "000" else if n < 100 then "00" else if n < 1000 then "0" else "") ++ toString n

/-- The `YYYY-MM-DDTHH:MM:SS` rendering of a wall-clock reading, the part of
`datetime.isoformat()` independent of the timezone. -/
def isoCivil (t : Int) : String :=
  let days := t.fdiv 86400
  let sod := t - days * 86400
  let c := civilFromDays days
  pad4 c.1 ++ "-" ++ pad2 c.2.1 ++ "-" ++ pad2 c.2.2 ++ "T" ++
    pad2 (sod.fdiv 3600) ++ ":" ++ pad2 ((sod.fdiv 60) % 60) ++ ":" ++ pad2 (sod % 60)

/-- The `+HH:MM`/`-HH:MM` suffix `isoformat()` appends for an aware datetime. -/
def offsetSuffix (off : Int) : String :=
  if 0 ≤ off then
    "+" ++ pad2 (off.fdiv 3600) ++ ":" ++ pad2 ((off.fdiv 60) % 60)
  else
    "-" ++ pad2 ((-off).fdiv 3600) ++ ":" ++ pad2 (((-off).fdiv 60) % 60)

/-- Python `datetime.isoformat()`: wall-clock reading, with the UTC-offset
suffix exactly when the datetime is timezone-aware. -/
def Datetime.isoformat (d : Datetime) : String :=
  isoCivil d.wallSeconds ++
    (match d.tzOffsetSeconds with
     | none => ""
     | some off => offsetSuffix off)

/-- Python `d.astimezone(timezone.utc)`: the same instant expressed in UTC.
For a naive input Python assumes the system-local timezone, modelled here as
UTC; the theorems below only use aware inputs. -/
def Datetime.astimezone_utc (d : Datetime) : Datetime :=
  ⟨d.wallSeconds - (d.tzOffsetSeconds.getD 0), some 0⟩

/-- Python `d.replace(tzinfo=None)`: drop the timezone, keep the wall clock. -/
def Datetime.replace_tzinfo_none (d : Datetime) : Datetime :=
  ⟨d.wallSeconds, none⟩

/-- The timestamp encoding of `start_strategy_algotrading` (api.py line 339):
`ts.astimezone(timezone.utc).replace(tzinfo=None).isoformat()`. -/
def start_timestamp_repr (ts : Datetime) : String :=
  ((ts.astimezone_utc).replace_tzinfo_none).isoformat

/-- The `map_trading_type_to_date_key` dictionary of
`start_strategy_algotrading` (api.py lines 333-337). -/
def map_trading_type_to_date_key : TradingType → String
  | .REALTRADING => "liveDataTime"
  | .PAPERTRADING => "backDataTime"
  | .BACKTESTING => "backDataDate"

/-- Python default of the `initial_funds_virtual` parameter (`1e9`,
api.py line 313), an exactly-representable float modelled as an integer. -/
def initial_funds_virtual_default : Int := 1000000000

/-- Python `d[k] = v` on a JSON object under construction, for a key not yet
present (api.py line 349 appends `initialFundsVirtual`). -/
def jSetField (v : JVal) (k : String) (new : JVal) : JVal :=
  match v with
  | .obj fields => .obj (fields ++ [(k, new)])
  | v => v

/-- The `execute_config` dictionary literal of `start_strategy_algotrading`
(api.py lines 338-344), before the conditional `initialFundsVirtual` insert. -/
def start_execute_config (trading_type : TradingType) (start_timestamp end_timestamp : Datetime)
    (lots : Int) (broker_details : Option JVal) : JVal :=
  .obj [(map_trading_type_to_date_key trading_type,
          .arr [.str (start_timestamp_repr start_timestamp), .str (start_timestamp_repr end_timestamp)]),
        ("isLiveDataTestMode", .boolean (trading_type = .PAPERTRADING ∨ trading_type = .REALTRADING)),
        ("customizationsQuantity", .num lots),
        ("brokingDetails", broker_details.getD .null),
        ("mode", .str trading_type.name)]

/-- The endpoint and final `execute_config` chosen by the mode branch of
`start_strategy_algotrading` (api.py lines 346-353). -/
def start_endpoint_and_config (trading_type : TradingType) (location : String)
    (execute_config : JVal) (initial_funds_virtual : Int) : String × JVal :=
  if trading_type = .PAPERTRADING ∨ trading_type = .BACKTESTING then
    ("v5/portfolio/strategies?isPythonBuild=true&isLive=false&location=" ++ location,
     jSetField execute_config "initialFundsVirtual" (.num initial_funds_virtual))
  else
    ("v5/portfolio/strategies?isPythonBuild=true&isLive=true&location=" ++ location,
     execute_config)

/-- The body of `AlgoBullsAPI.start_strategy_algotrading` inside its `try`
(api.py lines 331-360): resolve the key, build the descriptor, PATCH it. -/
def start_strategy_algotrading_body (tr : Transport) (strategy_code : String)
    (start_timestamp end_timestamp : Datetime) (trading_type : TradingType)
    (lots : Int) (location : String) (initial_funds_virtual : Int)
    (broker_details : Option JVal) (s : ApiState) : Except PyError JVal × ApiState :=
  match __get_key tr strategy_code trading_type s with
  | (.error e, s1) => (.error e, s1)
  | (.ok key, s1) =>
    let execute_config := start_execute_config trading_type start_timestamp end_timestamp lots broker_details
    let ec := start_endpoint_and_config trading_type location execute_config initial_funds_virtual
    let json_data : JVal := .obj [("method", .str "update"), ("newVal", .num 1),
      ("key", key.getD .null),
      ("record", .obj [("status", .num 0), ("lots", .num lots), ("executeConfig", ec.2)]),
      ("dataIndex", .str "executeConfig")]
    _send_request tr "patch" ec.1 SERVER_ENDPOINT none (some json_data) true true s1

/-- `AlgoBullsAPI.start_strategy_algotrading` (api.py lines 313-363): the body
wrapped in the Forbidden/InsufficientBalance try/except. -/
def start_strategy_algotrading (tr : Transport) (strategy_code : String)
    (start_timestamp end_timestamp : Datetime) (trading_type : TradingType)
    (lots : Int) (location : String) (initial_funds_virtual : Int)
    (broker_details : Option JVal) (s : ApiState) : Except PyError (Option JVal) × ApiState :=
  let r := start_strategy_algotrading_body tr strategy_code start_timestamp end_timestamp
    trading_type lots location initial_funds_virtual broker_details s
  (soften r.1, r.2)

/-- The body of `AlgoBullsAPI.stop_strategy_algotrading` inside its `try`
(api.py lines 378-385). -/
def stop_strategy_algotrading_body (tr : Transport) (strategy_code : String)
    (trading_type : TradingType) (s : ApiState) : Except PyError JVal × ApiState :=
  let endpoint := "v5/portfolio/strategies"
  match __get_key tr strategy_code trading_type s with
  | (.error e, s1) => (.error e, s1)
  | (.ok key, s1) =>
    let json_data : JVal := .obj [("method", .str "update"), ("newVal", .num 0),
      ("key", key.getD .null), ("record", .obj [("status", .num 2)]),
      ("dataIndex", .str "executeConfig")]
    _send_request tr "patch" endpoint SERVER_ENDPOINT none (some json_data) true true s1

/-- `AlgoBullsAPI.stop_strategy_algotrading` (api.py lines 365-388): the body
wrapped in the Forbidden/InsufficientBalance try/except. -/
def stop_strategy_algotrading (tr : Transport) (strategy_code : String)
    (trading_type : TradingType) (s : ApiState) : Except PyError (Option JVal) × ApiState :=
  let r := stop_strategy_algotrading_body tr strategy_code trading_type s
  (soften r.1, r.2)

/-- `AlgoBullsAPI.get_job_status` (api.py lines 390-410): resolve the key and
GET the status endpoint; no try/except, every error propagates. -/
def get_job_status (tr : Transport) (strategy_code : String) (trading_type : TradingType)
    (s : ApiState) : Except PyError JVal × ApiState :=
  match __get_key tr strategy_code trading_type s with
  | (.error e, s1) => (.error e, s1)
  | (.ok key, s1) =>
    let params : List (String × JVal) := [("key", key.getD .null)]
    let endpoint := "v2/user/strategy/status"
    _send_request tr "get" endpoint SERVER_ENDPOINT (some params) none true true s1

/-- `self.page_size`, set to 1000 in `__init__` (api.py line 29). -/
def page_size : Int := 1000

/-- `AlgoBullsAPI.get_reports` (api.py lines 437-467): resolve the key, then
GET the report endpoint selected by `report_type`. -/
def get_reports (tr : Transport) (strategy_code : String) (trading_type : TradingType)
    (report_type : TradingReportType) (country : String) (current_page : Int)
    (s : ApiState) : Except PyError JVal × ApiState :=
  match __get_key tr strategy_code trading_type s with
  | (.error e, s1) => (.error e, s1)
  | (.ok _key, s1) =>
    match report_type with
    | .PNL_TABLE =>
      let _filter := jdump (.obj [("tradingType", trading_type.value)])
      let endpoint := "v4/book/pl/data"
      let params : List (String × JVal) := [("pageSize", .num 0), ("isPythonBuild", .str "true"),
        ("strategyId", .str strategy_code),
        ("isLive", .boolean (trading_type = .REALTRADING)),
        ("country", .str country), ("filters", .str _filter)]
      _send_request tr "get" endpoint SERVER_ENDPOINT (some params) none true true s1
    | .ORDER_HISTORY =>
      let endpoint := "v5/build/python/user/order/charts"
      let params : List (String × JVal) := [("strategyId", .str strategy_code),
        ("country", .str country), ("currentPage", .num current_page),
        ("pageSize", .num page_size),
        ("isLive", .boolean (trading_type = .REALTRADING))]
      _send_request tr "get" endpoint SERVER_ENDPOINT (some params) none true true s1

/-- Underscore insertion of `re.sub(r'(?<!^)(?=[A-Z])', '_', k)` on the tail
of the string: a `_` is inserted before every ASCII uppercase letter. -/
def insertUnderscores : List Char → List Char
  | [] => []
  | c :: cs => (if c.isUpper then ['_', c] else [c]) ++ insertUnderscores cs

/-- `self.pattern.sub('_', k)` where `pattern = re.compile(r'(?<!^)(?=[A-Z])')`
(api.py lines 33, 37): insert `_` before every uppercase letter except at the
start of the string. -/
def pattern_sub (k : String) : String :=
  match k.data with
  | [] => ""
  | c :: cs => String.mk (c :: insertUnderscores cs)

/-- Python `str.lower()` on the ASCII keys the platform sends, modelled
character-wise. -/
def str_lower (s : String) : String :=
  String.mk (s.data.map Char.toLower)

/-- Python dict-comprehension insertion: later bindings of the same key
overwrite earlier ones. -/
def dict_insert {V : Type} (d : List (String × V)) (k : String) (v : V) :
    List (String × V) :=
  if (d.lookup k).isSome then
    d.map fun p => if p.1 = k then (k, v) else p
  else
    d ++ [(k, v)]

/-- `AlgoBullsAPI.__convert` (api.py lines 35-37):
`\x7bself.pattern.sub('_', k).lower(): v for k, v in _dict.items()\x7d`. -/
def __convert {V : Type} (_dict : List (String × V)) : List (String × V) :=
  _dict.foldl (fun acc p => dict_insert acc (str_lower (pattern_sub p.1)) p.2) []

theorem handle_response_classifies (method url : String) (flag : Bool) (r : HttpResponse)
    (k : ErrorKind) (h : (r.status_code, k) ∈ errTable) :
    handle_response method url flag r = .error (.api ⟨k, method, url, r.raw, r.status_code⟩) := by
  obtain ⟨code, raw, js⟩ := r
  simp only [errTable, List.mem_cons, List.not_mem_nil, or_false] at h
  rcases h with h | h | h | h | h | h | h <;>
    (rw [Prod.ext_iff] at h; obtain ⟨h1, h2⟩ := h; subst h1; subst h2; rfl)

/-- C3: for every response with status code in {400, 401, 402, 403, 404, 500,
504} and every raw body, `_send_request`'s response handling raises exactly
the error kind named for that code, and the raised error carries the method,
the URL, that exact status code, and the exact raw response body. -/
theorem classifier_maps_codes (method url : String) (flag : Bool) (r : HttpResponse)
    (k : ErrorKind) (h : (r.status_code, k) ∈ errTable) :
    handle_response method url flag r = .error (.api ⟨k, method, url, r.raw, r.status_code⟩) :=
  handle_response_classifies method url flag r k h

theorem classifier_maps_codes_witness :
    (403, ErrorKind.forbidden) ∈ errTable ∧
      handle_response "get" "https://api.algobulls.com/v2/user/strategy/status" true
        ⟨403, "quota exceeded", none⟩ =
        .error (.api ⟨.forbidden, "get", "https://api.algobulls.com/v2/user/strategy/status",
          "quota exceeded", 403⟩) :=
  ⟨by decide,
   classifier_maps_codes "get" "https://api.algobulls.com/v2/user/strategy/status" true
     ⟨403, "quota exceeded", none⟩ .forbidden (by decide)⟩

/-- C6: for every response with status 200, the dispatcher never raises: if
the body JSON-decodes, the decoded value is returned; if decoding fails, a
wrapper object carrying the raw body text is returned. -/
theorem status_200_never_raises (method url : String) (flag : Bool) (r : HttpResponse)
    (h : r.status_code = 200) :
    (∀ v, r.json = some v → handle_response method url flag r = .ok v) ∧
      (r.json = none →
        handle_response method url flag r = .ok (.obj [("response", .str r.raw)])) := by
  obtain ⟨code, raw, js⟩ := r
  simp only [HttpResponse.status_code] at h
  subst h
  refine ⟨fun v hv => ?_, fun hv => ?_⟩ <;> (simp only [HttpResponse.json] at hv; subst hv; rfl)

theorem status_200_never_raises_witness :
    handle_response "get" "https://api.algobulls.com/x" true ⟨200, "plain text", none⟩ =
      .ok (.obj [("response", .str "plain text")]) :=
  (status_200_never_raises "get" "https://api.algobulls.com/x" true
    ⟨200, "plain text", none⟩ rfl).2 rfl

/-- C5 counterexample: with `raise_exception_unknown_status_code = False` and
an unrecognized status code (999) whose body is not JSON, the dispatcher does
not return the decoded body — `return r.json()` itself raises
`JSONDecodeError` — refuting the claim that with the flag false the decoded
body is returned instead of raising. -/
theorem unknown_code_flag_false_counterexample :
    handle_response "get" "https://api.algobulls.com/x" false ⟨999, "oops", none⟩ =
        .error .jsonDecodeError ∧
      ¬ ∃ v, handle_response "get" "https://api.algobulls.com/x" false ⟨999, "oops", none⟩ =
        .ok v := by
  refine ⟨rfl, ?_⟩
  rintro ⟨v, hv⟩
  simp only [handle_response] at hv
  exact Except.noConfusion hv

/-- C5 amended: for every response whose status code is outside
{200, 400, 401, 402, 403, 404, 500, 504}: if the flag is true the dispatcher
raises the generic error carrying that status code and the raw body; if the
flag is false and the body JSON-decodes, the decoded body is returned (a
non-decodable body instead raises the JSON decoding error). -/
theorem unknown_code_flag_behavior (method url : String) (r : HttpResponse)
    (h : r.status_code ∉ [200, 400, 401, 402, 403, 404, 500, 504]) :
    handle_response method url true r =
        .error (.api ⟨.base, method, url, r.raw, r.status_code⟩) ∧
      (∀ v, r.json = some v → handle_response method url false r = .ok v) ∧
      (r.json = none → handle_response method url false r = .error .jsonDecodeError) := by
  obtain ⟨code, raw, js⟩ := r
  simp only [HttpResponse.status_code, List.mem_cons, List.not_mem_nil, or_false,
    not_or] at h
  obtain ⟨h200, h400, h401, h402, h403, h404, h500, h504⟩ := h
  refine ⟨?_, fun v hv => ?_, fun hv => ?_⟩ <;>
    simp_all [handle_response]

theorem unknown_code_flag_behavior_witness :
    (201 : Nat) ∉ [200, 400, 401, 402, 403, 404, 500, 504] ∧
      handle_response "post" "https://api.algobulls.com/x" true ⟨201, "created", none⟩ =
        .error (.api ⟨.base, "post", "https://api.algobulls.com/x", "created", 201⟩) ∧
      handle_response "post" "https://api.algobulls.com/x" false
        ⟨201, "created", some (.str "created")⟩ = .ok (.str "created") :=
  ⟨by decide,
   (unknown_code_flag_behavior "post" "https://api.algobulls.com/x"
     ⟨201, "created", none⟩ (by decide)).1,
   (unknown_code_flag_behavior "post" "https://api.algobulls.com/x"
     ⟨201, "created", some (.str "created")⟩ (by decide)).2.1 (.str "created") rfl⟩

theorem lookup_eq_none_of_not_mem_keys {V : Type} (d : List (String × V)) (k : String)
    (h : k ∉ d.map Prod.fst) : d.lookup k = none := by
  induction d with
  | nil => rfl
  | cons p rest ih =>
    simp only [List.map_cons, List.mem_cons, not_or] at h
    obtain ⟨h1, h2⟩ := h
    obtain ⟨k', v⟩ := p
    simp [List.lookup, beq_false_of_ne h1, ih h2]

theorem convert_foldl_eq {V : Type} (d : List (String × V)) (acc : List (String × V))
    (hdisj : ∀ p ∈ d, (str_lower (pattern_sub p.1)) ∉ acc.map Prod.fst)
    (hnd : (d.map fun p => str_lower (pattern_sub p.1)).Nodup) :
    d.foldl (fun acc p => dict_insert acc (str_lower (pattern_sub p.1)) p.2) acc =
      acc ++ d.map (fun p => (str_lower (pattern_sub p.1), p.2)) := by
  induction d generalizing acc with
  | nil => simp
  | cons p rest ih =>
    simp only [List.map_cons, List.nodup_cons] at hnd
    obtain ⟨hhead, hnd'⟩ := hnd
    have hnew : acc.lookup (str_lower (pattern_sub p.1)) = none :=
      lookup_eq_none_of_not_mem_keys _ _ (hdisj p (List.mem_cons_self p rest))
    have hins : dict_insert acc (str_lower (pattern_sub p.1)) p.2 =
        acc ++ [(str_lower (pattern_sub p.1), p.2)] := by
      simp [dict_insert, hnew]
    have hdisj' : ∀ q ∈ rest, (str_lower (pattern_sub q.1)) ∉
        (acc ++ [(str_lower (pattern_sub p.1), p.2)]).map Prod.fst := by
      intro q hq
      simp only [List.map_append, List.mem_append, List.map_cons, List.map_nil,
        List.mem_singleton, not_or]
      refine ⟨hdisj q (List.mem_cons_of_mem p hq), fun he => ?_⟩
      exact hhead (he ▸ List.mem_map_of_mem _ hq)
    calc (p :: rest).foldl (fun acc p => dict_insert acc (str_lower (pattern_sub p.1)) p.2) acc
        = rest.foldl (fun acc p => dict_insert acc (str_lower (pattern_sub p.1)) p.2)
            (acc ++ [(str_lower (pattern_sub p.1), p.2)]) := by rw [List.foldl_cons, hins]
      _ = (acc ++ [(str_lower (pattern_sub p.1), p.2)]) ++
            rest.map (fun p => (str_lower (pattern_sub p.1), p.2)) := ih _ hdisj' hnd'
      _ = acc ++ (p :: rest).map (fun p => (str_lower (pattern_sub p.1), p.2)) := by simp

theorem lookup_norm_map {V : Type} (d : List (String × V)) (p : String × V)
    (hp : p ∈ d) (hnd : (d.map fun q => str_lower (pattern_sub q.1)).Nodup) :
    (d.map fun q => (str_lower (pattern_sub q.1), q.2)).lookup (str_lower (pattern_sub p.1)) =
      some p.2 := by
  induction d with
  | nil => cases hp
  | cons q rest ih =>
    simp only [List.map_cons, List.nodup_cons] at hnd
    obtain ⟨hq, hnd'⟩ := hnd
    rcases List.mem_cons.mp hp with rfl | hmem
    · simp [List.lookup]
    · have hne : str_lower (pattern_sub p.1) ≠ str_lower (pattern_sub q.1) := by
        intro he
        exact hq (he ▸ List.mem_map_of_mem _ hmem)
      simp only [List.map_cons, List.lookup, beq_false_of_ne hne]
      exact ih hmem hnd'

/-- C9 counterexample: the distinct input keys `myKey` and `MyKey` both
normalize to `my_key`, so the dict comprehension keeps only the later value:
the output does not contain every input value, and value `1` is not reachable
under the normalized form of its original key — refuting the claim for an
arbitrary input mapping. -/
theorem convert_counterexample :
    str_lower (pattern_sub "myKey") = "my_key" ∧
      str_lower (pattern_sub "MyKey") = "my_key" ∧
      __convert [("myKey", (1 : Nat)), ("MyKey", 2)] = [("my_key", 2)] ∧
      (__convert [("myKey", (1 : Nat)), ("MyKey", 2)]).lookup
        (str_lower (pattern_sub "myKey")) ≠ some 1 := by
  refine ⟨rfl, rfl, rfl, ?_⟩
  intro h
  rw [show (__convert [("myKey", (1 : Nat)), ("MyKey", 2)]).lookup
      (str_lower (pattern_sub "myKey")) = some 2 from rfl] at h
  exact absurd (Option.some.inj h) (by decide)

/-- C9 amended: for every input mapping whose keys normalize injectively (no
two keys share the same snake-case form), the output mapping is exactly the
input with each top-level key replaced by the lower-cased, underscore-
separated form of the original key: every input value is reachable under the
normalized form of its original key, and values are passed through untouched
(the transformation is non-recursive and, being a pure function of the input,
has no side effects). -/
theorem convert_contract {V : Type} (_dict : List (String × V))
    (hinj : (_dict.map fun p => str_lower (pattern_sub p.1)).Nodup) :
    __convert _dict = _dict.map (fun p => (str_lower (pattern_sub p.1), p.2)) ∧
      ∀ p ∈ _dict, (__convert _dict).lookup (str_lower (pattern_sub p.1)) = some p.2 := by
  have h1 : __convert _dict = _dict.map (fun p => (str_lower (pattern_sub p.1), p.2)) := by
    have := convert_foldl_eq _dict [] (by simp) hinj
    simpa [__convert] using this
  refine ⟨h1, fun p hp => ?_⟩
  rw [h1]
  exact lookup_norm_map _dict p hp hinj

theorem convert_contract_witness :
    (([("strategyName", "s1"), ("abcVersion", "v1")].map
        fun p => str_lower (pattern_sub p.1)) : List String).Nodup ∧
      __convert [("strategyName", "s1"), ("abcVersion", "v1")] =
        [("strategy_name", "s1"), ("abc_version", "v1")] ∧
      (__convert [("strategyName", "s1"), ("abcVersion", "v1")]).lookup "strategy_name" =
        some "s1" :=
  ⟨by decide,
   (convert_contract [("strategyName", "s1"), ("abcVersion", "v1")] (by decide)).1,
   (convert_contract [("strategyName", "s1"), ("abcVersion", "v1")] (by decide)).2
     ("strategyName", "s1") (by decide)⟩

/-- C1 counterexample: `update_strategy` has no try/except (api.py lines
190-211), so when the transport answers 403 it raises the Forbidden error to
the caller instead of catching, logging and returning without a body —
refuting the claim that updateStrategy catches Forbidden. -/
theorem update_strategy_forbidden_counterexample :
    (update_strategy (fun _ => ⟨403, "quota exceeded", none⟩) "sc1" "name" "code" "3.3.0"
        ApiState.init).1 =
      .error (.api ⟨.forbidden, "put",
        SERVER_ENDPOINT ++ "v3/build/python/user/strategy/code", "quota exceeded", 403⟩) ∧
    ∀ v, (update_strategy (fun _ => ⟨403, "quota exceeded", none⟩) "sc1" "name" "code" "3.3.0"
        ApiState.init).1 ≠ .ok v := by
  refine ⟨rfl, fun v h => ?_⟩
  rw [show (update_strategy (fun _ => ⟨403, "quota exceeded", none⟩) "sc1" "name" "code" "3.3.0"
      ApiState.init).1 =
    .error (.api ⟨.forbidden, "put",
      SERVER_ENDPOINT ++ "v3/build/python/user/strategy/code", "quota exceeded", 403⟩) from rfl] at h
  exact Except.noConfusion h

/-- What the soft-failure operations return when their body raised the
classified error `e` of kind `k`: swallowed (`.ok none`, Python returns
`None`) exactly for Forbidden and InsufficientBalance, propagated otherwise. -/
def soft_result (k : ErrorKind) (e : ApiError) : Except PyError (Option JVal) :=
  if k = .forbidden ∨ k = .insufficientBalance then .ok none else .error (.api e)

/-- C1 amended: for every classified error raised by the dispatcher,
`create_strategy`, `start_strategy_algotrading` and `stop_strategy_algotrading`
catch exactly the Forbidden and InsufficientBalance kinds and return without
raising and without a response body, propagating every other kind; contrary
to the claim, `update_strategy` propagates every classified error — including
Forbidden and InsufficientBalance — to the caller, as does every other
operation (e.g. `get_job_status`). -/
theorem facade_error_policy (r : HttpResponse) (k : ErrorKind)
    (h : (r.status_code, k) ∈ errTable)
    (sc nm det abc loc : String) (tt : TradingType) (lots funds : Int)
    (bd : Option JVal) (d1 d2 : Datetime) :
    (create_strategy (fun _ => r) nm det abc ApiState.init).1 =
        soft_result k ⟨k, "post", SERVER_ENDPOINT ++ "v3/build/python/user/strategy/code",
          r.raw, r.status_code⟩ ∧
      (start_strategy_algotrading (fun _ => r) sc d1 d2 tt lots loc funds bd ApiState.init).1 =
        soft_result k ⟨k, reg_method tt, SERVER_ENDPOINT ++ "v2/portfolio/strategy",
          r.raw, r.status_code⟩ ∧
      (stop_strategy_algotrading (fun _ => r) sc tt ApiState.init).1 =
        soft_result k ⟨k, reg_method tt, SERVER_ENDPOINT ++ "v2/portfolio/strategy",
          r.raw, r.status_code⟩ ∧
      (update_strategy (fun _ => r) sc nm det abc ApiState.init).1 =
        .error (.api ⟨k, "put", SERVER_ENDPOINT ++ "v3/build/python/user/strategy/code",
          r.raw, r.status_code⟩) ∧
      (get_job_status (fun _ => r) sc tt ApiState.init).1 =
        .error (.api ⟨k, reg_method tt, SERVER_ENDPOINT ++ "v2/portfolio/strategy",
          r.raw, r.status_code⟩) := by
  obtain ⟨code, raw, js⟩ := r
  simp only [errTable, List.mem_cons, List.not_mem_nil, or_false] at h
  rcases h with h | h | h | h | h | h | h <;>
    (rw [Prod.ext_iff] at h; obtain ⟨h1, h2⟩ := h; subst h1; subst h2) <;>
    cases tt <;>
    exact ⟨rfl, rfl, rfl, rfl, rfl⟩

theorem facade_error_policy_witness :
    ((403, ErrorKind.forbidden) ∈ errTable) ∧
      (create_strategy (fun _ => ⟨403, "b", none⟩) "n" "d" "v" ApiState.init).1 =
        soft_result .forbidden ⟨.forbidden, "post",
          SERVER_ENDPOINT ++ "v3/build/python/user/strategy/code", "b", 403⟩ ∧
      (update_strategy (fun _ => ⟨403, "b", none⟩) "s" "n" "d" "v" ApiState.init).1 =
        .error (.api ⟨.forbidden, "put",
          SERVER_ENDPOINT ++ "v3/build/python/user/strategy/code", "b", 403⟩) :=
  ⟨by decide,
   (facade_error_policy ⟨403, "b", none⟩ .forbidden (by decide) "s" "n" "d" "v" "l"
     .BACKTESTING 1 1 none ⟨0, some 0⟩ ⟨0, some 0⟩).1,
   (facade_error_policy ⟨403, "b", none⟩ .forbidden (by decide) "s" "n" "d" "v" "l"
     .BACKTESTING 1 1 none ⟨0, some 0⟩ ⟨0, some 0⟩).2.2.2.1⟩

/-- A registration response that actually yields a key: status 200, a JSON
object body, and a non-null `key` field — the scenario the claim presumes. -/
def hasGoodKey (r : HttpResponse) : Bool :=
  decide (r.status_code = 200) &&
  (match r.json with
   | some (.obj fields) => ((fields.lookup "key").bind pyOpt).isSome
   | _ => false)

/-- The registration request `__fetch_key` issues for a pair. -/
def reg_request (trading_type : TradingType) (strategy_code : String) : Request :=
  ⟨reg_method trading_type, "v2/portfolio/strategy", SERVER_ENDPOINT, none,
   some (.obj [("strategyId", .str strategy_code), ("tradingType", trading_type.value)]), true⟩

/-- Replace the cache dictionary of one mode. -/
def set_cache (trading_type : TradingType) (s : ApiState)
    (d : List (String × Option JVal)) : ApiState :=
  match trading_type with
  | .BACKTESTING => { s with key_backtesting := d }
  | .PAPERTRADING => { s with key_papertrading := d }
  | .REALTRADING => { s with key_realtrading := d }

theorem cache_of_set_cache (tt : TradingType) (s : ApiState) (d : List (String × Option JVal)) :
    cache_of tt (set_cache tt s d) = d := by
  cases tt <;> rfl

theorem set_cache_reqLog (tt : TradingType) (s : ApiState) (d : List (String × Option JVal)) :
    (set_cache tt s d).reqLog = s.reqLog := by
  cases tt <;> rfl

theorem cache_of_reqLog (tt : TradingType) (s : ApiState) (L : List Request) :
    cache_of tt { s with reqLog := L } = cache_of tt s := by
  cases tt <;> rfl

theorem lookup_map_overwrite {V : Type} (d : List (String × V)) (k : String) (v : V)
    (h : (d.lookup k).isSome = true) :
    (d.map fun p => if p.1 = k then (k, v) else p).lookup k = some v := by
  induction d with
  | nil => simp [List.lookup] at h
  | cons p rest ih =>
    obtain ⟨k', w⟩ := p
    simp only [List.map_cons]
    by_cases hk : k' = k
    · subst hk
      rw [if_pos rfl]
      simp [List.lookup]
    · have hk2 : k ≠ k' := fun he => hk he.symm
      rw [if_neg hk]
      simp only [List.lookup, beq_false_of_ne hk2] at h
      simp only [List.lookup, beq_false_of_ne hk2]
      exact ih h

theorem lookup_append_right {V : Type} (d : List (String × V)) (k : String) (v : V)
    (h : d.lookup k = none) : (d ++ [(k, v)]).lookup k = some v := by
  induction d with
  | nil => simp [List.lookup]
  | cons p rest ih =>
    obtain ⟨k', w⟩ := p
    by_cases hk : k = k'
    · simp [List.lookup, hk] at h
    · simp only [List.lookup, beq_false_of_ne hk] at h
      simp [List.lookup, beq_false_of_ne hk, ih h]

theorem pyGet_pySet (d : List (String × Option JVal)) (k : String) (v : Option JVal) :
    pyGet (pySet d k v) k = v := by
  by_cases hs : (d.lookup k).isSome = true
  · have hm := lookup_map_overwrite d k v hs
    simp [pySet, hs, pyGet, hm]
  · have hn : d.lookup k = none := by
      cases hh : d.lookup k
      · rfl
      · rw [hh] at hs
        simp at hs
    have ha := lookup_append_right d k v hn
    simp [pySet, hs, pyGet, ha]

theorem fetch_key_spec (tr : Transport) (sc : String) (tt : TradingType) (s : ApiState) :
    __fetch_key tr sc tt s =
      ((match handle_response (reg_method tt) (SERVER_ENDPOINT ++ "v2/portfolio/strategy") true
          (tr s.reqLog.length) with
        | .ok v => dict_get v "key"
        | .error e => .error e),
       { s with reqLog := s.reqLog ++ [reg_request tt sc] }) := by
  cases tt <;> (simp only [__fetch_key, _send_request]; split <;> rfl)

theorem get_key_hit (tr : Transport) (sc : String) (tt : TradingType) (s : ApiState) (v : JVal)
    (h : pyGet (cache_of tt s) sc = some v) :
    __get_key tr sc tt s = (.ok (some v), s) := by
  cases tt <;> (simp only [cache_of] at h; simp [__get_key, h])

theorem get_key_miss (tr : Transport) (sc : String) (tt : TradingType) (s : ApiState)
    (h : pyGet (cache_of tt s) sc = none) :
    __get_key tr sc tt s =
      (match (__fetch_key tr sc tt s).1 with
       | .ok kv =>
         (.ok (pyGet (pySet (cache_of tt s) sc kv) sc),
          set_cache tt { s with reqLog := s.reqLog ++ [reg_request tt sc] }
            (pySet (cache_of tt s) sc kv))
       | .error e => (.error e, { s with reqLog := s.reqLog ++ [reg_request tt sc] })) := by
  have hf := fetch_key_spec tr sc tt s
  cases tt <;>
    (simp only [cache_of] at h;
     simp only [__get_key, h, Option.isNone_none, if_true];
     rw [hf];
     cases handle_response _ _ true (tr s.reqLog.length) with
     | ok v => cases hd : dict_get v "key" <;> simp [hd, set_cache, cache_of]
     | error e => rfl)

theorem get_key_miss_log (tr : Transport) (sc : String) (tt : TradingType) (s : ApiState)
    (h : pyGet (cache_of tt s) sc = none) :
    (__get_key tr sc tt s).2.reqLog = s.reqLog ++ [reg_request tt sc] := by
  rw [get_key_miss tr sc tt s h]
  cases (__fetch_key tr sc tt s).1 with
  | ok kv => simp [set_cache_reqLog]
  | error e => rfl

theorem fetch_key_good (tr : Transport) (sc : String) (tt : TradingType) (s : ApiState)
    (hg : hasGoodKey (tr s.reqLog.length) = true) :
    ∃ v : JVal, (__fetch_key tr sc tt s).1 = .ok (some v) := by
  rw [fetch_key_spec]
  rcases hr : tr s.reqLog.length with ⟨code, raw, js⟩
  rw [hr] at hg
  cases js with
  | none => simp [hasGoodKey] at hg
  | some jv =>
    cases jv with
    | obj fields =>
      simp only [hasGoodKey, Bool.and_eq_true, decide_eq_true_eq] at hg
      obtain ⟨h200, hjs⟩ := hg
      subst h200
      cases hv : (fields.lookup "key").bind pyOpt with
      | none => rw [hv] at hjs; simp at hjs
      | some v =>
        refine ⟨v, ?_⟩
        simp [handle_response, dict_get, hv]
    | str s' => simp [hasGoodKey] at hg
    | num n => simp [hasGoodKey] at hg
    | boolean b => simp [hasGoodKey] at hg
    | null => simp [hasGoodKey] at hg
    | arr xs => simp [hasGoodKey] at hg

/-- N sequential `__get_key` calls for the same (strategyCode, tradingMode)
pair, keeping only the client state. -/
def run_get_key_n (tr : Transport) (sc : String) (tt : TradingType) :
    Nat → ApiState → ApiState
  | 0, s => s
  | n + 1, s => run_get_key_n tr sc tt n (__get_key tr sc tt s).2

theorem run_get_key_stable (tr : Transport) (sc : String) (tt : TradingType) (n : Nat)
    (s : ApiState) (v : JVal) (h : pyGet (cache_of tt s) sc = some v) :
    run_get_key_n tr sc tt n s = s := by
  induction n with
  | zero => rfl
  | succ n ih =>
    show run_get_key_n tr sc tt n (__get_key tr sc tt s).2 = s
    rw [get_key_hit tr sc tt s v h]
    exact ih

/-- C2 counterexample: a transport that always answers a registration with
200 and the JSON object `\x7b\x7d` (no `key` field) makes `__fetch_key` return
`None`; `__get_key` stores `None`, so the cached value still reads as absent
and the second sequential `getKey` call for the same pair issues a second
registration request — refuting "at most one registration request ... for
every sequence of N sequential getKey calls". -/
theorem session_cache_counterexample :
    (run_get_key_n (fun _ => ⟨200, "\x7b\x7d", some (.obj [])⟩) "s1" .BACKTESTING 2
        ApiState.init).reqLog.length = 2 ∧
      ¬ ((run_get_key_n (fun _ => ⟨200, "\x7b\x7d", some (.obj [])⟩) "s1" .BACKTESTING 2
        ApiState.init).reqLog.length ≤ 1) := by
  refine ⟨rfl, ?_⟩
  rw [show (run_get_key_n (fun _ => ⟨200, "\x7b\x7d", some (.obj [])⟩) "s1" .BACKTESTING 2
      ApiState.init).reqLog.length = 2 from rfl]
  decide

/-- C2 amended: for every (strategyCode, tradingMode) pair and every sequence
of N sequential `getKey` calls with that pair, provided each registration
response is a 200 JSON object carrying a non-null `key`, at most one
registration request is issued; every issued request is a registration with
the mode-determined HTTP verb (post for REALTRADING, put for PAPERTRADING,
patch for BACKTESTING); and once N ≥ 1 a further call returns the cached key
with no state change, hence no network call. -/
theorem session_cache_at_most_one (tr : Transport) (sc : String) (tt : TradingType) (N : Nat)
    (hgood : ∀ n, hasGoodKey (tr n) = true) :
    (run_get_key_n tr sc tt N ApiState.init).reqLog.length ≤ 1 ∧
      (∀ req ∈ (run_get_key_n tr sc tt N ApiState.init).reqLog,
        req.method = reg_method tt ∧ req.endpoint = "v2/portfolio/strategy") ∧
      (1 ≤ N → ∃ v : JVal,
        __get_key tr sc tt (run_get_key_n tr sc tt N ApiState.init) =
          (.ok (some v), run_get_key_n tr sc tt N ApiState.init)) := by
  cases N with
  | zero =>
    refine ⟨Nat.zero_le 1, ?_, ?_⟩
    · intro req hreq
      exact absurd hreq (List.not_mem_nil req)
    · intro h
      exact absurd h (by decide)
  | succ n =>
    have hmiss : pyGet (cache_of tt ApiState.init) sc = none := by
      cases tt <;> rfl
    obtain ⟨v, hv⟩ := fetch_key_good tr sc tt ApiState.init (hgood 0)
    have hm := get_key_miss tr sc tt ApiState.init hmiss
    rw [hv] at hm
    have hpg : pyGet (pySet (cache_of tt ApiState.init) sc (some v)) sc = some v :=
      pyGet_pySet _ _ _
    have hs1cache : pyGet (cache_of tt (__get_key tr sc tt ApiState.init).2) sc = some v := by
      rw [hm]
      rw [cache_of_set_cache]
      exact hpg
    have hs1log : (__get_key tr sc tt ApiState.init).2.reqLog = [reg_request tt sc] := by
      rw [hm, set_cache_reqLog]
      rfl
    have hrun : run_get_key_n tr sc tt (n + 1) ApiState.init =
        (__get_key tr sc tt ApiState.init).2 := by
      show run_get_key_n tr sc tt n (__get_key tr sc tt ApiState.init).2 =
        (__get_key tr sc tt ApiState.init).2
      exact run_get_key_stable tr sc tt n _ v hs1cache
    rw [hrun, hs1log]
    refine ⟨Nat.le_refl 1, ?_, ?_⟩
    · intro req hreq
      rw [List.mem_singleton] at hreq
      subst hreq
      exact ⟨rfl, rfl⟩
    · intro _
      exact ⟨v, get_key_hit tr sc tt (__get_key tr sc tt ApiState.init).2 v hs1cache⟩

theorem session_cache_at_most_one_witness :
    hasGoodKey (⟨200, "r", some (.obj [("key", .str "k1")])⟩ : HttpResponse) = true ∧
      (run_get_key_n (fun _ => ⟨200, "r", some (.obj [("key", .str "k1")])⟩) "s1" .REALTRADING 3
        ApiState.init).reqLog.length ≤ 1 :=
  ⟨rfl,
   (session_cache_at_most_one (fun _ => ⟨200, "r", some (.obj [("key", .str "k1")])⟩)
     "s1" .REALTRADING 3 (fun _ => rfl)).1⟩

/-- C7: if the registration call on a `getKey` cache miss fails with a
classified error, that error (carrying the registration method, URL, status
and raw body) propagates to the caller, the cache entry for the pair remains
absent, and a subsequent `getKey` for the same pair issues a fresh
registration request (one more request in the log, whatever the transport
then answers). -/
theorem registration_failure_atomic (tr : Transport) (sc : String) (tt : TradingType)
    (s : ApiState) (k : ErrorKind)
    (hmiss : pyGet (cache_of tt s) sc = none)
    (herr : ((tr s.reqLog.length).status_code, k) ∈ errTable) :
    (__get_key tr sc tt s).1 =
        .error (.api ⟨k, reg_method tt, SERVER_ENDPOINT ++ "v2/portfolio/strategy",
          (tr s.reqLog.length).raw, (tr s.reqLog.length).status_code⟩) ∧
      cache_of tt (__get_key tr sc tt s).2 = cache_of tt s ∧
      pyGet (cache_of tt (__get_key tr sc tt s).2) sc = none ∧
      (__get_key tr sc tt (__get_key tr sc tt s).2).2.reqLog.length =
        (__get_key tr sc tt s).2.reqLog.length + 1 := by
  have hr := handle_response_classifies (reg_method tt)
    (SERVER_ENDPOINT ++ "v2/portfolio/strategy") true (tr s.reqLog.length) k herr
  have hfe : (__fetch_key tr sc tt s).1 =
      .error (.api ⟨k, reg_method tt, SERVER_ENDPOINT ++ "v2/portfolio/strategy",
        (tr s.reqLog.length).raw, (tr s.reqLog.length).status_code⟩) := by
    rw [fetch_key_spec, hr]
  have hm := get_key_miss tr sc tt s hmiss
  rw [hfe] at hm
  have hcache : cache_of tt (__get_key tr sc tt s).2 = cache_of tt s := by
    rw [hm, cache_of_reqLog]
  have hmiss2 : pyGet (cache_of tt (__get_key tr sc tt s).2) sc = none := by
    rw [hcache]
    exact hmiss
  refine ⟨by rw [hm], hcache, hmiss2, ?_⟩
  rw [get_key_miss_log tr sc tt _ hmiss2]
  simp

theorem registration_failure_atomic_witness :
    (pyGet (cache_of .BACKTESTING ApiState.init) "s1" = none) ∧
      (((fun _ => (⟨500, "boom", none⟩ : HttpResponse)) (ApiState.init.reqLog.length)).status_code,
        ErrorKind.internalServerError) ∈ errTable ∧
      (__get_key (fun _ => ⟨500, "boom", none⟩) "s1" .BACKTESTING ApiState.init).1 =
        .error (.api ⟨.internalServerError, "patch",
          SERVER_ENDPOINT ++ "v2/portfolio/strategy", "boom", 500⟩) :=
  ⟨rfl, by decide,
   (registration_failure_atomic (fun _ => ⟨500, "boom", none⟩) "s1" .BACKTESTING
     ApiState.init .internalServerError rfl (by decide)).1⟩

/-- Pure field lookup on a decoded JSON object (no exception view needed). -/
def jget (v : JVal) (k : String) : Option JVal :=
  match v with
  | .obj fields => fields.lookup k
  | _ => none

theorem str_append_empty (s : String) : s ++ "" = s := by
  cases s with
  | mk data =>
    show String.mk (data ++ []) = String.mk data
    rw [List.append_nil]

/-- The PATCH request `start_strategy_algotrading` issues once the
registration on the cache miss succeeded: the second logged request carries
the mode-selected endpoint and the `executeConfig` descriptor. -/
theorem start_request_spec (tr : Transport) (sc loc : String) (tt : TradingType)
    (lots funds : Int) (bd : Option JVal) (d1 d2 : Datetime)
    (hg : hasGoodKey (tr 0) = true) :
    ∃ v : JVal,
      ((start_strategy_algotrading tr sc d1 d2 tt lots loc funds bd ApiState.init).2.reqLog)[1]? =
        some ⟨"patch",
          (start_endpoint_and_config tt loc (start_execute_config tt d1 d2 lots bd) funds).1,
          SERVER_ENDPOINT, none,
          some (.obj [("method", .str "update"), ("newVal", .num 1), ("key", v),
            ("record", .obj [("status", .num 0), ("lots", .num lots),
              ("executeConfig",
                (start_endpoint_and_config tt loc (start_execute_config tt d1 d2 lots bd) funds).2)]),
            ("dataIndex", .str "executeConfig")]), true⟩ := by
  have hmiss : pyGet (cache_of tt ApiState.init) sc = none := by
    cases tt <;> rfl
  obtain ⟨v, hv⟩ := fetch_key_good tr sc tt ApiState.init hg
  have h0 := get_key_miss tr sc tt ApiState.init hmiss
  rw [hv] at h0
  have hm2 : __get_key tr sc tt ApiState.init =
      (.ok (pyGet (pySet (cache_of tt ApiState.init) sc (some v)) sc),
       set_cache tt { ApiState.init with reqLog := ApiState.init.reqLog ++ [reg_request tt sc] }
         (pySet (cache_of tt ApiState.init) sc (some v))) := h0
  rw [pyGet_pySet] at hm2
  refine ⟨v, ?_⟩
  simp only [start_strategy_algotrading, start_strategy_algotrading_body]
  rw [hm2]
  cases tt <;> rfl

/-- C4: `start_strategy_algotrading` places the [start, end] range under the
mode-determined field name — `backDataDate` for BACKTESTING, `backDataTime`
for PAPERTRADING, `liveDataTime` for REALTRADING — and for every aware input
timestamp of any timezone offset, the emitted value is the ISO rendering of
the UTC instant (wall clock minus offset) with no timezone suffix: it equals
the aware UTC `isoformat` with its `+00:00` suffix stripped. -/
theorem start_places_daterange (tr : Transport) (sc loc : String) (tt : TradingType)
    (lots funds : Int) (bd : Option JVal) (d1 d2 : Datetime) (o1 o2 : Int)
    (h1 : d1.tzOffsetSeconds = some o1) (h2 : d2.tzOffsetSeconds = some o2)
    (hg : hasGoodKey (tr 0) = true) :
    (map_trading_type_to_date_key .BACKTESTING = "backDataDate" ∧
        map_trading_type_to_date_key .PAPERTRADING = "backDataTime" ∧
        map_trading_type_to_date_key .REALTRADING = "liveDataTime") ∧
      (start_timestamp_repr d1 = isoCivil (d1.wallSeconds - o1) ∧
        start_timestamp_repr d2 = isoCivil (d2.wallSeconds - o2)) ∧
      (d1.astimezone_utc).isoformat = isoCivil (d1.wallSeconds - o1) ++ offsetSuffix 0 ∧
      (∃ req,
        ((start_strategy_algotrading tr sc d1 d2 tt lots loc funds bd
            ApiState.init).2.reqLog)[1]? = some req ∧
        req.method = "patch" ∧
        ((req.json_data.bind (fun j => jget j "record")).bind
            (fun j => jget j "executeConfig")).bind
            (fun j => jget j (map_trading_type_to_date_key tt)) =
          some (.arr [.str (start_timestamp_repr d1), .str (start_timestamp_repr d2)])) := by
  refine ⟨⟨rfl, rfl, rfl⟩, ⟨?_, ?_⟩, ?_, ?_⟩
  · simp [start_timestamp_repr, Datetime.astimezone_utc, Datetime.replace_tzinfo_none,
      Datetime.isoformat, h1, str_append_empty]
  · simp [start_timestamp_repr, Datetime.astimezone_utc, Datetime.replace_tzinfo_none,
      Datetime.isoformat, h2, str_append_empty]
  · simp [Datetime.astimezone_utc, Datetime.isoformat, h1]
  · obtain ⟨v, hreq⟩ := start_request_spec tr sc loc tt lots funds bd d1 d2 hg
    refine ⟨_, hreq, rfl, ?_⟩
    cases tt <;> rfl

theorem start_places_daterange_witness :
    ((⟨3600, some 3600⟩ : Datetime).tzOffsetSeconds = some 3600) ∧
      start_timestamp_repr ⟨3600, some 3600⟩ = isoCivil 0 ∧
      start_timestamp_repr ⟨3600, some 3600⟩ = "1970-01-01T00:00:00" :=
  ⟨rfl,
   ((start_places_daterange (fun _ => ⟨200, "r", some (.obj [("key", .str "k")])⟩)
     "s" "l" .BACKTESTING 1 1 none ⟨3600, some 3600⟩ ⟨3600, some 3600⟩ 3600 3600
     rfl rfl rfl).2.1).1,
   by
     rw [((start_places_daterange (fun _ => ⟨200, "r", some (.obj [("key", .str "k")])⟩)
       "s" "l" .BACKTESTING 1 1 none ⟨3600, some 3600⟩ ⟨3600, some 3600⟩ 3600 3600
       rfl rfl rfl).2.1).1]
     rfl⟩

/-- C10: when tradingMode is PAPERTRADING or BACKTESTING the execution
descriptor additionally carries `initialFundsVirtual` (whose Python default
is 1e9) and the start endpoint carries `isLive=false`; for REALTRADING
`initialFundsVirtual` is absent from the descriptor and the endpoint carries
`isLive=true`.  Verified both on the descriptor/endpoint construction and on
the PATCH request the operation actually issues. -/
theorem start_virtual_funds_policy (tr : Transport) (sc loc : String)
    (lots funds : Int) (bd : Option JVal) (d1 d2 : Datetime)
    (hg : hasGoodKey (tr 0) = true) :
    (∀ tt : TradingType, tt = .PAPERTRADING ∨ tt = .BACKTESTING →
        (start_endpoint_and_config tt loc (start_execute_config tt d1 d2 lots bd) funds).1 =
          "v5/portfolio/strategies?isPythonBuild=true&isLive=false&location=" ++ loc ∧
        jget (start_endpoint_and_config tt loc (start_execute_config tt d1 d2 lots bd) funds).2
          "initialFundsVirtual" = some (.num funds)) ∧
      ((start_endpoint_and_config .REALTRADING loc
            (start_execute_config .REALTRADING d1 d2 lots bd) funds).1 =
          "v5/portfolio/strategies?isPythonBuild=true&isLive=true&location=" ++ loc ∧
        jget (start_endpoint_and_config .REALTRADING loc
            (start_execute_config .REALTRADING d1 d2 lots bd) funds).2
          "initialFundsVirtual" = none) ∧
      initial_funds_virtual_default = 10 ^ 9 ∧
      (∀ tt : TradingType, ∃ req,
        ((start_strategy_algotrading tr sc d1 d2 tt lots loc funds bd
            ApiState.init).2.reqLog)[1]? = some req ∧
        req.endpoint =
          (start_endpoint_and_config tt loc (start_execute_config tt d1 d2 lots bd) funds).1 ∧
        (req.json_data.bind (fun j => jget j "record")).bind (fun j => jget j "executeConfig") =
          some (start_endpoint_and_config tt loc (start_execute_config tt d1 d2 lots bd) funds).2) := by
  refine ⟨?_, ⟨rfl, rfl⟩, rfl, ?_⟩
  · intro tt htt
    rcases htt with rfl | rfl
    · exact ⟨rfl, rfl⟩
    · exact ⟨rfl, rfl⟩
  · intro tt
    obtain ⟨v, hreq⟩ := start_request_spec tr sc loc tt lots funds bd d1 d2 hg
    exact ⟨_, hreq, rfl, rfl⟩

theorem start_virtual_funds_policy_witness :
    hasGoodKey (⟨200, "r", some (.obj [("key", .str "k")])⟩ : HttpResponse) = true ∧
      (start_endpoint_and_config .BACKTESTING "IN"
          (start_execute_config .BACKTESTING ⟨0, some 0⟩ ⟨0, some 0⟩ 1 none)
          initial_funds_virtual_default).1 =
        "v5/portfolio/strategies?isPythonBuild=true&isLive=false&location=" ++ "IN" ∧
      jget (start_endpoint_and_config .BACKTESTING "IN"
          (start_execute_config .BACKTESTING ⟨0, some 0⟩ ⟨0, some 0⟩ 1 none)
          initial_funds_virtual_default).2 "initialFundsVirtual" =
        some (.num initial_funds_virtual_default) :=
  ⟨rfl,
   ((start_virtual_funds_policy (fun _ => ⟨200, "r", some (.obj [("key", .str "k")])⟩)
     "s" "IN" 1 initial_funds_virtual_default none ⟨0, some 0⟩ ⟨0, some 0⟩ rfl).1
     .BACKTESTING (Or.inr rfl)).1,
   ((start_virtual_funds_policy (fun _ => ⟨200, "r", some (.obj [("key", .str "k")])⟩)
     "s" "IN" 1 initial_funds_virtual_default none ⟨0, some 0⟩ ⟨0, some 0⟩ rfl).1
     .BACKTESTING (Or.inr rfl)).2⟩

/-- C8: `get_reports` with mode BACKTESTING and report type PNL_TABLE issues
a GET to `v4/book/pl/data` whose query parameters carry `isLive = false` and
a `filters` parameter equal to the JSON serialization of the object mapping
"tradingType" to BACKTESTING's wire value. -/
theorem get_reports_pnl_backtesting (tr : Transport) (sc country : String) (page : Int)
    (hg : hasGoodKey (tr 0) = true) :
    ∃ req,
      ((get_reports tr sc .BACKTESTING .PNL_TABLE country page ApiState.init).2.reqLog)[1]? =
        some req ∧
      req.method = "get" ∧
      req.endpoint = "v4/book/pl/data" ∧
      (req.params.bind fun ps => ps.lookup "isLive") = some (.boolean false) ∧
      (req.params.bind fun ps => ps.lookup "filters") =
        some (.str (jdump (.obj [("tradingType", TradingType.value .BACKTESTING)]))) ∧
      jdump (.obj [("tradingType", TradingType.value .BACKTESTING)]) =
        "\x7b\"tradingType\": 1\x7d" := by
  have hmiss : pyGet (cache_of .BACKTESTING ApiState.init) sc = none := rfl
  obtain ⟨v, hv⟩ := fetch_key_good tr sc .BACKTESTING ApiState.init hg
  have h0 := get_key_miss tr sc .BACKTESTING ApiState.init hmiss
  rw [hv] at h0
  have hm2 : __get_key tr sc .BACKTESTING ApiState.init =
      (.ok (pyGet (pySet (cache_of .BACKTESTING ApiState.init) sc (some v)) sc),
       set_cache .BACKTESTING
         { ApiState.init with reqLog := ApiState.init.reqLog ++ [reg_request .BACKTESTING sc] }
         (pySet (cache_of .BACKTESTING ApiState.init) sc (some v))) := h0
  rw [pyGet_pySet] at hm2
  simp only [get_reports]
  rw [hm2]
  exact ⟨_, rfl, rfl, rfl, rfl, rfl, rfl⟩

theorem get_reports_pnl_backtesting_witness :
    hasGoodKey (⟨200, "r", some (.obj [("key", .str "k")])⟩ : HttpResponse) = true ∧
      ∃ req,
        ((get_reports (fun _ => ⟨200, "r", some (.obj [("key", .str "k")])⟩) "S1" .BACKTESTING
            .PNL_TABLE "IN" 1 ApiState.init).2.reqLog)[1]? = some req ∧
        req.method = "get" ∧
        req.endpoint = "v4/book/pl/data" ∧
        (req.params.bind fun ps => ps.lookup "isLive") = some (.boolean false) ∧
        (req.params.bind fun ps => ps.lookup "filters") =
          some (.str (jdump (.obj [("tradingType", TradingType.value .BACKTESTING)]))) ∧
        jdump (.obj [("tradingType", TradingType.value .BACKTESTING)]) =
          "\x7b\"tradingType\": 1\x7d" :=
  ⟨rfl,
   get_reports_pnl_backtesting (fun _ => ⟨200, "r", some (.obj [("key", .str "k")])⟩)
     "S1" "IN" 1 rfl⟩

end AlgoBulls
